import Mathlib

/-!
Verification of the Dreamstime-AutoUploader automation bot.

Shallow embedding of the Python sources:
  src/utils.py            (sanitize_title, safe_wait)
  src/automation.py       (refresh_page_if_stuck, process_images_loop, AutomationState)
  src/gemini_analyzer.py  (GeminiImageAnalyzer._parse_response)
  src/app.py              (start_automation numeric coercion, automation_state status writes)
  src/config.py           (defaults, MAX_RETRIES)

Python strings are modelled as List Char; machine state mutation is modelled
by explicit state passing.  Browser and network side effects are modelled by
per-iteration environment records describing what the page would answer.
-/

namespace Dreamstime

/-! ## utils.py: sanitize_title (lines 138-158) -/

/-- Embedding of utils.sanitize_title: falsy (empty) input gives an empty
string, every colon is replaced by a comma, and the result is truncated to
115 characters when longer. -/
def sanitize_title (title : List Char) : List Char :=
  if title = [] then []
  else
    let sanitized := title.map (fun c => if c = ':' then ',' else c)
    if 115 < sanitized.length then sanitized.take 115 else sanitized

/-- The specification reading of sanitize_title: replace every colon by a
comma, truncate to at most 115 characters, change nothing else. -/
def sanitize_title_spec (title : List Char) : List Char :=
  (title.map (fun c => if c = ':' then ',' else c)).take 115

/-! ## utils.py: safe_wait (lines 161-187)

The wait is modelled over logical millisecond ticks.  A run of safe_wait
either raises StopRequestedException at some elapsed tick, or completes and
reports the list of blocking chunks it slept through.  The
stop_check_callback is a function of the elapsed tick at which it is
consulted. -/

inductive WaitResult where
  | raised (elapsed : Nat)
  | completed (chunks : List Nat)
deriving DecidableEq

/-- The while loop of safe_wait: check the stop flag, then block for
min(100, ms - elapsed) ticks, repeat until elapsed reaches ms. -/
def safeWaitLoop (f : Nat → Bool) (ms : Nat) (elapsed : Nat) (acc : List Nat) : WaitResult :=
  if _h : elapsed < ms then
    if f elapsed then WaitResult.raised elapsed
    else safeWaitLoop f ms (elapsed + min 100 (ms - elapsed)) (acc ++ [min 100 (ms - elapsed)])
  else WaitResult.completed acc
termination_by ms - elapsed
decreasing_by omega

/-- Embedding of utils.safe_wait.  With no callback the function performs a
single blocking page.wait_for_timeout(ms) and returns; with a callback it
polls the stop flag every 100 ticks. -/
def safe_wait (ms : Nat) (cb : Option (Nat → Bool)) : WaitResult :=
  match cb with
  | none => WaitResult.completed [ms]
  | some f => safeWaitLoop f ms 0 []

/-- A direct page.wait_for_timeout(ms) call: one blocking chunk of the full
duration, never consulting the stop flag. -/
def waitForTimeout (ms : Nat) : List Nat := [ms]

/-- The settle wait after navigating to the upload page in
step1_navigate_to_dreamstime (automation.py line 504):
self.page.wait_for_timeout(3000), executed on the run thread. -/
def step1UploadSettleWait : List Nat := waitForTimeout 3000

/-! ## config.py: constants used by the loop (lines 44-48) -/

/-- Config.MAX_RETRIES. -/
def MAX_RETRIES : Nat := 3

/-! ## automation.py: refresh_page_if_stuck (lines 271-319)

The browser interactions (reload, goto, the stabilization wait) are abstracted
by an oracle recoverOk : Nat → Bool, where recoverOk a tells whether after the
a-th refresh attempt is_page_stuck() reports the page healthy.  maxRetries is
self.state.max_stuck_retries, stuckCount is self.state.page_stuck_count. -/

structure RefreshResult where
  ok : Bool
  stuckCount : Nat
  attempts : Nat
deriving DecidableEq

/-- Embedding of DreamstimeBot.refresh_page_if_stuck.  Returns the boolean
result, the final page_stuck_count, and the number of refresh attempts
actually performed (the recursion depth). -/
def refresh_page_if_stuck (recoverOk : Nat → Bool) (maxRetries : Nat) (stuckCount : Nat) :
    RefreshResult :=
  if _h : maxRetries ≤ stuckCount then ⟨false, stuckCount, 0⟩
  else if recoverOk (stuckCount + 1) then ⟨true, 0, 1⟩
  else
    let r := refresh_page_if_stuck recoverOk maxRetries (stuckCount + 1)
    ⟨r.ok, r.stuckCount, r.attempts + 1⟩
termination_by maxRetries - stuckCount
decreasing_by omega

/-! ## automation.py: process_images_loop (lines 654-947)

Per-iteration environment: what the page answers during iteration i of the
for loop.  Each field corresponds to one probe the loop makes. -/

structure IterEnv where
  /-- self.state.stop_requested observed at the top of the iteration. -/
  stopRequested : Bool
  /-- the current URL matches the edit-page pattern (line 692). -/
  onEditPage : Bool
  /-- captcha check after the stock-vector navigation succeeds (line 699). -/
  navCaptcha1Ok : Bool
  /-- captcha check after the upload navigation succeeds (line 708). -/
  navCaptcha2Ok : Bool
  /-- at least one /upload/edit link exists on the upload page (line 725). -/
  editLinkFound : Bool
  /-- wait_for_element_with_refresh finds #title (line 735). -/
  titleFound : Bool
  /-- wait_for_element_with_refresh finds #description (line 747). -/
  descFound : Bool
  /-- text of #js-originalfilename; none when the element is absent or the
  scrape raises (the except branch at line 780). -/
  scrapedId : Option String
  /-- the #js-next-submit button exists (line 768). -/
  nextBtnPresent : Bool
  /-- captcha check before submitting succeeds (line 871). -/
  captchaBeforeSubmitOk : Bool
  /-- the #submitbutton element exists (line 880). -/
  submitBtnPresent : Bool
  /-- time.time() - image_start_time > 60 at the check on line 892. -/
  elapsedOver60 : Bool
  /-- the #js-delete-submit button exists (line 897). -/
  deleteBtnPresent : Bool
  /-- the .js-confirm button exists in the delete popup (line 903). -/
  confirmBtnPresent : Bool
  /-- captcha check after submitting succeeds (line 918). -/
  captchaAfterSubmitOk : Bool
  /-- the stop flag becomes set during the pacing or pause sleep
  (lines 929-938), making safe_wait raise StopRequestedException. -/
  stopDuringSleep : Bool

/-- Observable page interactions of one run of the loop, indexed by the
iteration that performed them. -/
inductive Ev where
  | clickEditLink (i : Nat)
  | readId (i : Nat) (id : String)
  | clickNext (i : Nat)
  | clickSubmit (i : Nat)
  | clickDelete (i : Nat)
  | clickConfirmDelete (i : Nat)
deriving DecidableEq

/-- Mutable state of the loop: self.state.last_image_id,
self.state.retry_count, the local variable processed, and the mirrored
self.state.processed_count / self.state.successful_count, plus the trace of
page interactions. -/
structure LoopState where
  lastImageId : String
  retryCount : Nat
  processed : Nat
  processedCount : Nat
  successfulCount : Nat
  events : List Ev
deriving DecidableEq

def initLoopState : LoopState := ⟨"", 0, 0, 0, 0, []⟩

def pushEv (s : LoopState) (e : Ev) : LoopState :=
  { s with events := s.events ++ [e] }

/-- How one iteration ends: fall through to the next iteration (continue or
normal end of body), break out of the for loop, or propagate
StopRequestedException out of the whole function. -/
inductive Control where
  | cont
  | brk
  | exc
deriving DecidableEq

/-- Lines 692-732: when the current URL is not an edit page, navigate to the
upload surface and click the first edit link.  none models the three break
paths (two captcha failures and no-more-images); some s models falling
through to the field waits. -/
def navResult (env : IterEnv) (i : Nat) (s : LoopState) : Option LoopState :=
  if env.onEditPage then some s
  else if !env.navCaptcha1Ok then none
  else if !env.navCaptcha2Ok then none
  else if !env.editLinkFound then none
  else some (pushEv s (Ev.clickEditLink i))

/-- Lines 784-938 after the duplicate check: the title/description population
and template append (lines 784-865) only mutate the page, then the captcha
check before submit, the submit click, the 60-second overtime check with the
delete path, the captcha check after submit, the processed counters, and the
pacing/pause sleeps. -/
def fieldsAndSubmit (o : Nat) (env : IterEnv) (i : Nat) (s : LoopState) : LoopState × Control :=
  if !env.captchaBeforeSubmitOk then (s, Control.brk)
  else
    let submitSuccess := env.submitBtnPresent
    let s1 := if env.submitBtnPresent then pushEv s (Ev.clickSubmit i) else s
    if env.elapsedOver60 then
      let s2 :=
        if env.deleteBtnPresent then
          let sA := pushEv s1 (Ev.clickDelete i)
          if env.confirmBtnPresent then pushEv sA (Ev.clickConfirmDelete i) else sA
        else s1
      (s2, Control.cont)
    else if !submitSuccess then (s1, Control.cont)
    else if !env.captchaAfterSubmitOk then (s1, Control.brk)
    else
      let p := s1.processed + 1
      let s2 := { s1 with processed := p, processedCount := p, successfulCount := p }
      if p < o ∧ env.stopDuringSleep then (s2, Control.exc) else (s2, Control.cont)

/-- Duplicate-image policy, self.same_id_action.  other stands for any
configured value besides stop and skip. -/
inductive SameIdAction where
  | stop
  | skip
  | other
deriving DecidableEq

/-- Run configuration consumed by the loop: repeatCount and sameIdAction.
The pacing fields only select sleep durations and are absorbed into
IterEnv.stopDuringSleep. -/
structure RunOptions where
  repeatCount : Nat
  sameIdAction : SameIdAction

/-- One iteration of the for loop body (lines 679-938). -/
def processBody (o : RunOptions) (i : Nat) (env : IterEnv) (s : LoopState) : LoopState × Control :=
  if env.stopRequested then (s, Control.brk)
  else
    match navResult env i s with
    | none => (s, Control.brk)
    | some s1 =>
      if !env.titleFound then (s1, Control.cont)
      else if !env.descFound then (s1, Control.cont)
      else
        match env.scrapedId with
        | none => fieldsAndSubmit o.repeatCount env i s1
        | some id =>
          let s2 := pushEv s1 (Ev.readId i id)
          if id ≠ "" ∧ id = s2.lastImageId then
            match o.sameIdAction with
            | SameIdAction.stop => (s2, Control.brk)
            | SameIdAction.skip =>
              let s3 := if env.nextBtnPresent then pushEv s2 (Ev.clickNext i) else s2
              if MAX_RETRIES ≤ s3.retryCount + 1 then
                ({ s3 with retryCount := 0, processed := s3.processed + 1 }, Control.cont)
              else ({ s3 with retryCount := s3.retryCount + 1 }, Control.cont)
            | SameIdAction.other =>
              fieldsAndSubmit o.repeatCount env i { s2 with lastImageId := id, retryCount := 0 }
          else
            fieldsAndSubmit o.repeatCount env i { s2 with lastImageId := id, retryCount := 0 }

/-- Result of process_images_loop: finished covers both exhausting the range
and breaking out (both reach line 940 and return True); raisedStop is a
StopRequestedException propagating out of the body; preFailure covers the
pre-loop failure exits (lines 668 and 675). -/
inductive RunOutcome where
  | finished (s : LoopState)
  | raisedStop (s : LoopState)
  | preFailure
deriving DecidableEq

/-- The for loop over i in range(repeat_count), with fuel counting the
remaining iterations. -/
def runLoop (o : RunOptions) (envs : Nat → IterEnv) : Nat → Nat → LoopState → RunOutcome
  | _, 0, s => RunOutcome.finished s
  | i, fuel + 1, s =>
    match processBody o i (envs i) s with
    | (s1, Control.cont) => runLoop o envs (i + 1) fuel s1
    | (s1, Control.brk) => RunOutcome.finished s1
    | (s1, Control.exc) => RunOutcome.raisedStop s1

/-- Embedding of DreamstimeBot.process_images_loop.  initialLoadOk models the
stuck-page recovery of the initial load (lines 661-668), captchaOk the
pre-loop captcha check (lines 673-675). -/
def process_images_loop (initialLoadOk captchaOk : Bool) (o : RunOptions)
    (envs : Nat → IterEnv) : RunOutcome :=
  if !initialLoadOk then RunOutcome.preFailure
  else if !captchaOk then RunOutcome.preFailure
  else runLoop o envs 0 o.repeatCount initLoopState

/-- An iteration in which every page probe answers favourably: the page is an
edit page, the fields are found, the scraped id is the given string, captcha
never fires, submit and delete controls exist, the item stays under the
60-second ceiling and no stop arrives. -/
def happyEnv (id : String) : IterEnv where
  stopRequested := false
  onEditPage := true
  navCaptcha1Ok := true
  navCaptcha2Ok := true
  editLinkFound := true
  titleFound := true
  descFound := true
  scrapedId := some id
  nextBtnPresent := true
  captchaBeforeSubmitOk := true
  submitBtnPresent := true
  elapsedOver60 := false
  deleteBtnPresent := true
  confirmBtnPresent := true
  captchaAfterSubmitOk := true
  stopDuringSleep := false

/-- A happy iteration whose per-item cycle has exceeded the 60-second ceiling
by the time the check on line 892 runs. -/
def overtimeEnv : IterEnv := { happyEnv "A" with elapsedOver60 := true }

/-- Environment stream serving the scraped id sequence A, A, B, B, ... -/
def envsAAB (A : String) : Nat → IterEnv :=
  fun n => happyEnv (if n ≤ 1 then A else "B")

def runFinished : RunOutcome → Bool
  | RunOutcome.finished _ => true
  | _ => false

def runProcessed : RunOutcome → Nat
  | RunOutcome.finished s => s.processed
  | RunOutcome.raisedStop s => s.processed
  | RunOutcome.preFailure => 0

def runRetryCount : RunOutcome → Nat
  | RunOutcome.finished s => s.retryCount
  | RunOutcome.raisedStop s => s.retryCount
  | RunOutcome.preFailure => 0

def runLastId : RunOutcome → String
  | RunOutcome.finished s => s.lastImageId
  | RunOutcome.raisedStop s => s.lastImageId
  | RunOutcome.preFailure => ""

def runEvents : RunOutcome → List Ev
  | RunOutcome.finished s => s.events
  | RunOutcome.raisedStop s => s.events
  | RunOutcome.preFailure => []

/-! ## gemini_analyzer.py: _parse_response (lines 155-187)

Python strings are modelled as List Char; str.strip, str.upper,
str.startswith, str.split(sep, 1) and the quote strip are embedded below. -/

/-- Characters removed by Python str.strip() with no argument. -/
def pyIsSpace (c : Char) : Bool :=
  c = ' ' || c = '\t' || c = '\n' || c = '\r' || c = Char.ofNat 11 || c = Char.ofNat 12

/-- Python str.strip(chars): drop characters satisfying p from both ends. -/
def pyStripBy (p : Char → Bool) (l : List Char) : List Char :=
  ((l.dropWhile p).reverse.dropWhile p).reverse

/-- Python str.strip(). -/
def pyStrip (l : List Char) : List Char := pyStripBy pyIsSpace l

/-- The two quote characters stripped by line.strip with a double quote and a
single quote as argument (gemini_analyzer.py lines 168 and 174). -/
def quoteChars : List Char := ['"', Char.ofNat 39]

def pyStripQuotes (l : List Char) : List Char :=
  pyStripBy (fun c => quoteChars.contains c) l

/-- Python str.upper restricted to the characters the labels contain. -/
def pyUpper (l : List Char) : List Char := l.map Char.toUpper

/-- Python line.split(sep, 1)[1] for sep a colon: everything after the first
colon.  Only used under a startswith guard that guarantees a colon exists. -/
def afterFirstColon (l : List Char) : List Char :=
  (l.dropWhile (fun c => !(c = ':'))).drop 1

/-- The 115-character cap with truncation marker applied to a parsed title
(gemini_analyzer.py lines 170-171). -/
def capTitle (t : List Char) : List Char :=
  if 115 < t.length then t.take 112 ++ "...".toList else t

def TITLE_LABEL : List Char := "TITLE:".toList

def DESCRIPTION_LABEL : List Char := "DESCRIPTION:".toList

/-- The for loop over lines (gemini_analyzer.py lines 163-174), carrying the
title and description accumulators. -/
def parseLines : List (List Char) → Option (List Char) → Option (List Char) →
    Option (List Char) × Option (List Char)
  | [], t, d => (t, d)
  | line :: rest, t, d =>
    let l := pyStrip line
    if TITLE_LABEL.isPrefixOf (pyUpper l) then
      parseLines rest (some (capTitle (pyStripQuotes (pyStrip (afterFirstColon l))))) d
    else if DESCRIPTION_LABEL.isPrefixOf (pyUpper l) then
      parseLines rest t (some (pyStripQuotes (pyStrip (afterFirstColon l))))
    else parseLines rest t d

/-- Embedding of GeminiImageAnalyzer._parse_response.  Returns none unless
both a TITLE: and a DESCRIPTION: line were parsed to truthy (non-empty)
strings, mirroring the final if title and description check. -/
def parse_response (text : List Char) : Option (List Char × List Char) :=
  match parseLines ((pyStrip text).splitOn '\n') none none with
  | (some t, some d) => if t ≠ [] ∧ d ≠ [] then some (t, d) else none
  | _ => none

/-- A labelled line is present in the response: some line, stripped and
uppercased, starts with the label. -/
def hasLabel (lbl : List Char) (text : List Char) : Bool :=
  ((pyStrip text).splitOn '\n').any (fun l => lbl.isPrefixOf (pyUpper (pyStrip l)))

/-! ## app.py: numeric option coercion in start_automation (lines 120-140)

JSON values that can arrive for repeatCount, pauseAfter, pauseDuration, and
the Python int() builtin applied to them.  int() raises ValueError on an
unparsable string and TypeError on null, arrays and objects; only ValueError
is caught by the handler. -/

inductive JValue where
  | jnull
  | jbool (b : Bool)
  | jint (n : Int)
  | jstr (s : List Char)
  | jarr
  | jobj

inductive PyErr where
  | valueError
  | typeError
deriving DecidableEq

/-- Digits of a decimal literal. -/
def digitsToNat : List Char → Option Nat
  | [] => none
  | l => l.foldl (fun acc c => match acc with
      | none => none
      | some n => if c.isDigit then some (n * 10 + (c.toNat - 48)) else none)
      (some 0)

/-- Python int(str): strip whitespace, optional sign, decimal digits.
(Underscore digit grouping accepted by CPython is not modelled; no claim
depends on which strings parse.) -/
def pyIntOfStr (s : List Char) : Option Int :=
  match pyStrip s with
  | '+' :: rest => (digitsToNat rest).map Int.ofNat
  | '-' :: rest => (digitsToNat rest).map (fun n => -(Int.ofNat n))
  | t => (digitsToNat t).map Int.ofNat

/-- Python int(v) on a JSON-decoded value. -/
def pyInt : JValue → Except PyErr Int
  | JValue.jint n => Except.ok n
  | JValue.jbool b => Except.ok (if b then 1 else 0)
  | JValue.jstr s =>
    match pyIntOfStr s with
    | some n => Except.ok n
    | none => Except.error PyErr.valueError
  | JValue.jnull => Except.error PyErr.typeError
  | JValue.jarr => Except.error PyErr.typeError
  | JValue.jobj => Except.error PyErr.typeError

/-- config.py defaults for the three numeric options. -/
def DEFAULT_REPEAT_COUNT : Int := 999

def DEFAULT_PAUSE_AFTER : Int := 0

def DEFAULT_PAUSE_DURATION : Int := 60

/-- One try/except ValueError block of start_automation: absent field left
untouched, int() success stored, ValueError replaced by the default,
TypeError propagating. -/
def coerceField (dflt : Int) : Option JValue → Except PyErr (Option Int)
  | none => Except.ok none
  | some v =>
    match pyInt v with
    | Except.ok n => Except.ok (some n)
    | Except.error PyErr.valueError => Except.ok (some dflt)
    | Except.error PyErr.typeError => Except.error PyErr.typeError

/-- The three numeric fields of the start request body. -/
structure StartOptions where
  repeatCount : Option JValue
  pauseAfter : Option JValue
  pauseDuration : Option JValue

structure CoercedOptions where
  repeatCount : Option Int
  pauseAfter : Option Int
  pauseDuration : Option Int
deriving DecidableEq

/-- The numeric-validation section of start_automation (app.py lines
124-140): the three fields are coerced in order and the first uncaught
exception aborts the section. -/
def validate_options (o : StartOptions) : Except PyErr CoercedOptions :=
  match coerceField DEFAULT_REPEAT_COUNT o.repeatCount with
  | Except.error e => Except.error e
  | Except.ok r =>
    match coerceField DEFAULT_PAUSE_AFTER o.pauseAfter with
    | Except.error e => Except.error e
    | Except.ok p =>
      match coerceField DEFAULT_PAUSE_DURATION o.pauseDuration with
      | Except.error e => Except.error e
      | Except.ok d => Except.ok ⟨r, p, d⟩

inductive StartResult where
  | accepted (opts : CoercedOptions)
  | rejected500
deriving DecidableEq

/-- start_automation with credentials configured and no run active: an
uncaught exception from the coercion section reaches the outer except
Exception handler and the request is rejected with HTTP 500. -/
def start_automation (o : StartOptions) : StartResult :=
  match validate_options o with
  | Except.ok c => StartResult.accepted c
  | Except.error _ => StartResult.rejected500

/-- A field value is either absent or a JSON string. -/
def strOrAbsent : Option JValue → Bool
  | none => true
  | some (JValue.jstr _) => true
  | some _ => false

/-! ## app.py: the automation_state status field (lines 19-96, 222-229)

Every write to automation_state performed by the module, in order of
occurrence in a run. -/

inductive Severity where
  | info
  | success
  | warning
  | error
deriving DecidableEq

/-- The status string each severity carries (the third argument of
log_progress, forwarded verbatim by progress_callback). -/
def Severity.toName : Severity → String
  | Severity.info => "info"
  | Severity.success => "success"
  | Severity.warning => "warning"
  | Severity.error => "error"

structure ProgressEvent where
  step : Int
  message : String
  status : String
deriving DecidableEq

structure AppState where
  running : Bool
  status : String
  progress : List ProgressEvent
deriving DecidableEq

/-- The module-level automation_state initializer (app.py lines 20-25). -/
def initialAppState : AppState := ⟨false, "idle", []⟩

/-- The operations that write automation_state. -/
inductive AppOp where
  /-- run_automation entry (lines 72-74): running := True, progress := [],
  status := running. -/
  | startRun
  /-- progress_callback (lines 28-35): append the event and overwrite status
  with the event severity. -/
  | progressEvent (step : Int) (msg : String) (sev : Severity)
  /-- bot.run() returned True (line 82). -/
  | runCompleted
  /-- bot.run() returned False (line 84). -/
  | runFailed
  /-- an exception escaped bot.run() (lines 86-93): status := error and an
  error event is appended. -/
  | runError (msg : String)
  /-- the finally block (lines 94-96): running := False. -/
  | runFinally

def applyOp (s : AppState) : AppOp → AppState
  | AppOp.startRun => ⟨true, "running", []⟩
  | AppOp.progressEvent st m sev =>
    { s with progress := s.progress ++ [⟨st, m, sev.toName⟩], status := sev.toName }
  | AppOp.runCompleted => { s with status := "completed" }
  | AppOp.runFailed => { s with status := "failed" }
  | AppOp.runError m =>
    { s with status := "error", progress := s.progress ++ [⟨-1, m, "error"⟩] }
  | AppOp.runFinally => { s with running := false }

/-- automation_state after a sequence of writes, starting from the module
initializer. -/
def runOps (ops : List AppOp) : AppState := ops.foldl applyOp initialAppState

/-- The status enum named by the specification for the status query. -/
def claimedStatusEnum : List String := ["idle", "running", "completed", "failed", "error"]

/-- The severity strings progress events carry. -/
def severityNames : List String := ["info", "success", "warning", "error"]

/-! # Theorems -/

/-! ## Helper lemmas -/

theorem refresh_unfold_giveup (recoverOk : Nat → Bool) (maxRetries c : Nat)
    (h : maxRetries ≤ c) :
    refresh_page_if_stuck recoverOk maxRetries c = ⟨false, c, 0⟩ := by
  rw [refresh_page_if_stuck]; simp [h]

theorem refresh_unfold_recovered (recoverOk : Nat → Bool) (maxRetries c : Nat)
    (h : ¬ maxRetries ≤ c) (h2 : recoverOk (c + 1) = true) :
    refresh_page_if_stuck recoverOk maxRetries c = ⟨true, 0, 1⟩ := by
  rw [refresh_page_if_stuck]; simp [h, h2]

theorem refresh_unfold_failed (recoverOk : Nat → Bool) (maxRetries c : Nat)
    (h : ¬ maxRetries ≤ c) (h2 : recoverOk (c + 1) = false) :
    refresh_page_if_stuck recoverOk maxRetries c =
      ⟨(refresh_page_if_stuck recoverOk maxRetries (c + 1)).ok,
       (refresh_page_if_stuck recoverOk maxRetries (c + 1)).stuckCount,
       (refresh_page_if_stuck recoverOk maxRetries (c + 1)).attempts + 1⟩ := by
  conv_lhs => rw [refresh_page_if_stuck]
  simp [h, h2]

theorem refresh_attempts_le (n : Nat) : ∀ (recoverOk : Nat → Bool) (maxRetries c : Nat),
    maxRetries - c ≤ n →
    (refresh_page_if_stuck recoverOk maxRetries c).attempts ≤ maxRetries - c := by
  induction n with
  | zero =>
    intro ok maxR c h
    have hmc : maxR ≤ c := by omega
    rw [refresh_unfold_giveup ok maxR c hmc]
    exact Nat.zero_le _
  | succ n ih =>
    intro ok maxR c h
    by_cases hmc : maxR ≤ c
    · rw [refresh_unfold_giveup ok maxR c hmc]
      exact Nat.zero_le _
    · cases hr : ok (c + 1) with
      | true =>
        rw [refresh_unfold_recovered ok maxR c hmc hr]
        show 1 ≤ maxR - c
        omega
      | false =>
        rw [refresh_unfold_failed ok maxR c hmc hr]
        have := ih ok maxR (c + 1) (by omega)
        show (refresh_page_if_stuck ok maxR (c + 1)).attempts + 1 ≤ maxR - c
        omega

theorem refresh_allFail (n : Nat) : ∀ (maxRetries c : Nat),
    maxRetries - c ≤ n → c ≤ maxRetries →
    refresh_page_if_stuck (fun _ => false) maxRetries c =
      ⟨false, maxRetries, maxRetries - c⟩ := by
  induction n with
  | zero =>
    intro maxR c h hc
    have hmc : maxR ≤ c := by omega
    rw [refresh_unfold_giveup _ maxR c hmc]
    have h0 : maxR - c = 0 := by omega
    have hcm : c = maxR := by omega
    rw [h0, hcm]
  | succ n ih =>
    intro maxR c h hc
    by_cases hmc : maxR ≤ c
    · rw [refresh_unfold_giveup _ maxR c hmc]
      have h0 : maxR - c = 0 := by omega
      have hcm : c = maxR := by omega
      rw [h0, hcm]
    · rw [refresh_unfold_failed _ maxR c hmc rfl]
      rw [ih maxR (c + 1) (by omega) (by omega)]
      have h1 : maxR - (c + 1) + 1 = maxR - c := by omega
      simp [h1]

theorem refresh_ok_reset (n : Nat) : ∀ (recoverOk : Nat → Bool) (maxRetries c : Nat),
    maxRetries - c ≤ n →
    (refresh_page_if_stuck recoverOk maxRetries c).ok = true →
    (refresh_page_if_stuck recoverOk maxRetries c).stuckCount = 0 := by
  induction n with
  | zero =>
    intro ok maxR c h hok
    have hmc : maxR ≤ c := by omega
    rw [refresh_unfold_giveup ok maxR c hmc] at hok
    simp at hok
  | succ n ih =>
    intro ok maxR c h hok
    by_cases hmc : maxR ≤ c
    · rw [refresh_unfold_giveup ok maxR c hmc] at hok
      simp at hok
    · cases hr : ok (c + 1) with
      | true => rw [refresh_unfold_recovered ok maxR c hmc hr]
      | false =>
        rw [refresh_unfold_failed ok maxR c hmc hr] at hok ⊢
        exact ih ok maxR (c + 1) (by omega) hok

/-! ## C3: refresh_page_if_stuck terminates with a bounded number of failed
attempts -/

/-- C3: for every maxStuckRetries, refresh_page_if_stuck performs at most
maxStuckRetries - page_stuck_count recovery attempts (so it never recurses
beyond the bound); when every recovery attempt fails it returns the terminal
failure False after exactly maxStuckRetries attempts from a fresh counter;
and whenever it reports success the stuck counter has been reset to 0. -/
theorem c3_refresh_bounded :
    (∀ (recoverOk : Nat → Bool) (maxRetries stuckCount : Nat),
      (refresh_page_if_stuck recoverOk maxRetries stuckCount).attempts ≤
        maxRetries - stuckCount)
    ∧ (∀ maxRetries : Nat,
      refresh_page_if_stuck (fun _ => false) maxRetries 0 =
        ⟨false, maxRetries, maxRetries⟩)
    ∧ (∀ (recoverOk : Nat → Bool) (maxRetries stuckCount : Nat),
      (refresh_page_if_stuck recoverOk maxRetries stuckCount).ok = true →
      (refresh_page_if_stuck recoverOk maxRetries stuckCount).stuckCount = 0) := by
  refine ⟨fun ok maxR c => refresh_attempts_le (maxR - c) ok maxR c le_rfl, fun maxR => ?_,
    fun ok maxR c => refresh_ok_reset (maxR - c) ok maxR c le_rfl⟩
  have := refresh_allFail maxR maxR 0 (by omega) (by omega)
  simpa using this

/-- C3 witness: with the maximum of 3 from the source and an always-failing
recovery, the guard returns False with exactly 3 attempts; with recovery
succeeding on the second attempt, the counter is reset to 0. -/
theorem c3_refresh_bounded_witness :
    refresh_page_if_stuck (fun _ => false) 3 0 = ⟨false, 3, 3⟩
    ∧ (refresh_page_if_stuck (fun a => a == 2) 3 0).stuckCount = 0 :=
  ⟨c3_refresh_bounded.2.1 3,
    c3_refresh_bounded.2.2 (fun a => a == 2) 3 0 (by simp [refresh_page_if_stuck])⟩

/-! ## C7: sanitize_title -/

theorem sanitize_title_eq_spec (s : List Char) :
    sanitize_title s = sanitize_title_spec s := by
  unfold sanitize_title sanitize_title_spec
  by_cases h : s = []
  · subst h; simp
  · simp only [if_neg h]
    by_cases h2 : 115 < (s.map fun c => if c = ':' then ',' else c).length
    · simp [h2]
    · simp only [if_neg h2]
      exact (List.take_of_length_le (by omega)).symm

set_option maxRecDepth 4000 in
/-- C7: sanitize_title replaces every colon by a comma, truncates to at most
115 characters, makes no other change, maps empty input to the empty string;
in particular sanitize_title of a,b,c with colons gives commas and a
200-character input is cut to exactly 115. -/
theorem c7_sanitize_title :
    (∀ s : List Char, sanitize_title s =
      (s.map fun c => if c = ':' then ',' else c).take 115)
    ∧ sanitize_title "a:b:c".toList = "a,b,c".toList
    ∧ (sanitize_title (List.replicate 200 'x')).length = 115
    ∧ sanitize_title [] = [] := by
  refine ⟨fun s => sanitize_title_eq_spec s, by decide, by decide, rfl⟩

/-! ## C9: the status field written by the app -/

theorem applyOp_status_mem (s : AppState) (op : AppOp)
    (h : s.status ∈ claimedStatusEnum ++ severityNames) :
    (applyOp s op).status ∈ claimedStatusEnum ++ severityNames := by
  cases op with
  | startRun =>
    show ("running" : String) ∈ claimedStatusEnum ++ severityNames
    decide
  | progressEvent st m sev =>
    cases sev with
    | info => show ("info" : String) ∈ claimedStatusEnum ++ severityNames; decide
    | success => show ("success" : String) ∈ claimedStatusEnum ++ severityNames; decide
    | warning => show ("warning" : String) ∈ claimedStatusEnum ++ severityNames; decide
    | error => show ("error" : String) ∈ claimedStatusEnum ++ severityNames; decide
  | runCompleted =>
    show ("completed" : String) ∈ claimedStatusEnum ++ severityNames
    decide
  | runFailed =>
    show ("failed" : String) ∈ claimedStatusEnum ++ severityNames
    decide
  | runError m =>
    show ("error" : String) ∈ claimedStatusEnum ++ severityNames
    decide
  | runFinally => exact h

theorem foldl_status_mem (ops : List AppOp) : ∀ s : AppState,
    s.status ∈ claimedStatusEnum ++ severityNames →
    (ops.foldl applyOp s).status ∈ claimedStatusEnum ++ severityNames := by
  induction ops with
  | nil => intro s h; exact h
  | cons op rest ih => intro s h; exact ih (applyOp s op) (applyOp_status_mem s op h)

/-- C9 (amended): after any sequence of status writes the status field lies in
the union of the specified lifecycle enum and the progress-event severity
strings; the lifecycle enum alone is not an invariant because
progress_callback copies each event severity into the status field. -/
theorem c9_status_invariant (ops : List AppOp) :
    (runOps ops).status ∈ claimedStatusEnum ++ severityNames :=
  foldl_status_mem ops initialAppState (by decide)

/-- C9 counterexample: the very first progress event of a run (severity info)
drives the status field to the string info, which is outside the claimed
enum. -/
theorem c9_counterexample :
    (runOps [AppOp.startRun,
      AppOp.progressEvent 0 "Connecting to existing Chrome session..." Severity.info]).status
        = "info"
    ∧ "info" ∉ claimedStatusEnum := by
  refine ⟨rfl, by decide⟩

/-! ## C8: numeric option coercion in start_automation -/

theorem coerceField_strOrAbsent_ok (d : Int) (v : Option JValue)
    (h : strOrAbsent v = true) : ∃ x, coerceField d v = Except.ok x := by
  cases v with
  | none => exact ⟨none, rfl⟩
  | some j =>
    cases j with
    | jstr s =>
      cases hp : pyIntOfStr s with
      | none => exact ⟨some d, by simp [coerceField, pyInt, hp]⟩
      | some n => exact ⟨some n, by simp [coerceField, pyInt, hp]⟩
    | jnull => simp [strOrAbsent] at h
    | jbool b => simp [strOrAbsent] at h
    | jint n => simp [strOrAbsent] at h
    | jarr => simp [strOrAbsent] at h
    | jobj => simp [strOrAbsent] at h

/-- C8 (amended): a string value for repeatCount, pauseAfter or pauseDuration
is coerced with int(); an unparsable string raises ValueError, which is
caught and silently replaced by the documented default, and a start request
whose numeric fields are all absent-or-string is never rejected by the
coercion.  (Non-string non-numeric values raise TypeError instead, which is
not caught: see the counterexample.) -/
theorem c8_numeric_coercion :
    (∀ (s : List Char) (dflt : Int), pyIntOfStr s = none →
      coerceField dflt (some (JValue.jstr s)) = Except.ok (some dflt))
    ∧ (∀ (s : List Char) (n dflt : Int), pyIntOfStr s = some n →
      coerceField dflt (some (JValue.jstr s)) = Except.ok (some n))
    ∧ (∀ o : StartOptions, strOrAbsent o.repeatCount = true →
      strOrAbsent o.pauseAfter = true → strOrAbsent o.pauseDuration = true →
      ∃ c, start_automation o = StartResult.accepted c) := by
  refine ⟨?_, ?_, ?_⟩
  · intro s dflt h; simp [coerceField, pyInt, h]
  · intro s n dflt h; simp [coerceField, pyInt, h]
  · intro o h1 h2 h3
    obtain ⟨x1, hx1⟩ := coerceField_strOrAbsent_ok DEFAULT_REPEAT_COUNT o.repeatCount h1
    obtain ⟨x2, hx2⟩ := coerceField_strOrAbsent_ok DEFAULT_PAUSE_AFTER o.pauseAfter h2
    obtain ⟨x3, hx3⟩ := coerceField_strOrAbsent_ok DEFAULT_PAUSE_DURATION o.pauseDuration h3
    refine ⟨⟨x1, x2, x3⟩, ?_⟩
    unfold start_automation validate_options
    rw [hx1, hx2, hx3]

/-- C8 counterexample: a JSON null for repeatCount makes int() raise
TypeError, which the except ValueError handler does not catch, so the start
request is rejected with HTTP 500 instead of falling back to the default. -/
theorem c8_counterexample :
    start_automation ⟨some JValue.jnull, none, none⟩ = StartResult.rejected500 := rfl

/-- C8 witness: the unparsable string abc falls back to the default 999 and
the string 5 is coerced to 5. -/
theorem c8_numeric_coercion_witness :
    coerceField 999 (some (JValue.jstr "abc".toList)) = Except.ok (some 999)
    ∧ coerceField 0 (some (JValue.jstr "5".toList)) = Except.ok (some 5) :=
  ⟨c8_numeric_coercion.1 "abc".toList 999 (by decide),
    c8_numeric_coercion.2.1 "5".toList 5 0 (by decide)⟩

/-! ## safe_wait lemmas (C5, C10) -/

theorem safeWaitLoop_completed_chunks (f : Nat → Bool) (ms : Nat) (n : Nat) :
    ∀ (e : Nat) (acc : List Nat), ms - e ≤ n → (∀ c ∈ acc, c ≤ 100) →
    ∀ chunks, safeWaitLoop f ms e acc = WaitResult.completed chunks →
    ∀ c ∈ chunks, c ≤ 100 := by
  induction n with
  | zero =>
    intro e acc h hacc chunks hres
    have hn : ¬ e < ms := by omega
    rw [safeWaitLoop, dif_neg hn] at hres
    cases hres
    exact hacc
  | succ n ih =>
    intro e acc h hacc chunks hres
    by_cases hlt : e < ms
    · rw [safeWaitLoop, dif_pos hlt] at hres
      by_cases hf : f e = true
      · rw [if_pos hf] at hres
        exact absurd hres (by simp)
      · rw [if_neg hf] at hres
        refine ih (e + min 100 (ms - e)) (acc ++ [min 100 (ms - e)]) (by omega) ?_ chunks hres
        intro c hc
        rcases List.mem_append.mp hc with h1 | h1
        · exact hacc c h1
        · simp only [List.mem_singleton] at h1
          omega
    · rw [safeWaitLoop, dif_neg hlt] at hres
      cases hres
      exact hacc

theorem safeWaitLoop_raised_iff (f : Nat → Bool) (ms : Nat) (n : Nat) :
    ∀ (e : Nat) (acc : List Nat), ms - e ≤ n →
    ((∃ r, safeWaitLoop f ms e acc = WaitResult.raised r) ↔
      ∃ k, e + 100 * k < ms ∧ f (e + 100 * k) = true) := by
  induction n with
  | zero =>
    intro e acc h
    have hn : ¬ e < ms := by omega
    rw [safeWaitLoop, dif_neg hn]
    constructor
    · rintro ⟨r, hr⟩
      exact absurd hr (by simp)
    · rintro ⟨k, hk, _⟩
      omega
  | succ n ih =>
    intro e acc h
    by_cases hlt : e < ms
    · rw [safeWaitLoop, dif_pos hlt]
      by_cases hf : f e = true
      · rw [if_pos hf]
        constructor
        · intro _
          exact ⟨0, by omega, by simpa using hf⟩
        · intro _
          exact ⟨e, rfl⟩
      · rw [if_neg hf]
        by_cases hbig : 100 < ms - e
        · have hmin : min 100 (ms - e) = 100 := by omega
          rw [hmin, ih (e + 100) (acc ++ [100]) (by omega)]
          constructor
          · rintro ⟨k, hk1, hk2⟩
            refine ⟨k + 1, by omega, ?_⟩
            have harg : e + 100 * (k + 1) = e + 100 + 100 * k := by ring
            rw [harg]
            exact hk2
          · rintro ⟨k, hk1, hk2⟩
            cases k with
            | zero =>
              rw [Nat.mul_zero, Nat.add_zero] at hk2
              exact absurd hk2 hf
            | succ k =>
              refine ⟨k, by omega, ?_⟩
              have harg : e + 100 + 100 * k = e + 100 * (k + 1) := by ring
              rw [harg]
              exact hk2
        · have hmin : min 100 (ms - e) = ms - e := by omega
          have he : e + (ms - e) = ms := by omega
          rw [hmin, he, ih ms (acc ++ [ms - e]) (by omega)]
          constructor
          · rintro ⟨k, hk1, _⟩
            omega
          · rintro ⟨k, hk1, hk2⟩
            cases k with
            | zero =>
              rw [Nat.mul_zero, Nat.add_zero] at hk2
              exact absurd hk2 hf
            | succ k =>
              exfalso
              omega
    · rw [safeWaitLoop, dif_neg hlt]
      constructor
      · rintro ⟨r, hr⟩
        exact absurd hr (by simp)
      · rintro ⟨k, hk, _⟩
        omega

theorem safeWaitLoop_latency (ms T : Nat) (n : Nat) :
    ∀ (e : Nat) (acc : List Nat), ms - e ≤ n → e ≤ T → T < ms →
    (∃ r, safeWaitLoop (fun t => decide (T ≤ t)) ms e acc = WaitResult.raised r ∧
      T ≤ r ∧ r < T + 100)
    ∨ (∃ cs, safeWaitLoop (fun t => decide (T ≤ t)) ms e acc = WaitResult.completed cs ∧
      ms < T + 100) := by
  induction n with
  | zero =>
    intro e acc h he hT
    omega
  | succ n ih =>
    intro e acc h he hT
    have hlt : e < ms := by omega
    rw [safeWaitLoop, dif_pos hlt]
    by_cases hTe : T ≤ e
    · have hfe : (fun t => decide (T ≤ t)) e = true := by simp [hTe]
      rw [if_pos hfe]
      left
      exact ⟨e, rfl, hTe, by omega⟩
    · have hfe : ¬ ((fun t => decide (T ≤ t)) e = true) := by simp; omega
      rw [if_neg hfe]
      by_cases hnext : e + min 100 (ms - e) ≤ T
      · exact ih (e + min 100 (ms - e)) (acc ++ [min 100 (ms - e)]) (by omega) hnext hT
      · rw [safeWaitLoop]
        by_cases hlt2 : e + min 100 (ms - e) < ms
        · rw [dif_pos hlt2]
          have hfe2 : (fun t => decide (T ≤ t)) (e + min 100 (ms - e)) = true := by
            simp
            omega
          rw [if_pos hfe2]
          left
          exact ⟨e + min 100 (ms - e), rfl, by omega, by omega⟩
        · rw [dif_neg hlt2]
          right
          exact ⟨_, rfl, by omega⟩

/-! ## C5: waits and the 100ms stop-poll contract -/

/-- C5 (amended): every wait performed through safe_wait with a stop callback
is decomposed into blocking chunks of at most 100 ticks, and a stop flag that
becomes set at tick T during such a wait is observed within one polling
interval: the wait raises at a tick r with T ≤ r < T + 100, or it completes
and its total duration ends fewer than 100 ticks after T.  Waits issued
directly through page.wait_for_timeout are not covered (see the
counterexample). -/
theorem c5_safe_wait_poll :
    (∀ (ms : Nat) (f : Nat → Bool) (chunks : List Nat),
      safe_wait ms (some f) = WaitResult.completed chunks → ∀ c ∈ chunks, c ≤ 100)
    ∧ (∀ ms T : Nat, T < ms →
      (∃ r, safe_wait ms (some (fun t => decide (T ≤ t))) = WaitResult.raised r ∧
        T ≤ r ∧ r < T + 100)
      ∨ (∃ cs, safe_wait ms (some (fun t => decide (T ≤ t))) = WaitResult.completed cs ∧
        ms < T + 100)) := by
  constructor
  · intro ms f chunks hres
    exact safeWaitLoop_completed_chunks f ms ms 0 [] (by omega) (by simp) chunks hres
  · intro ms T hT
    exact safeWaitLoop_latency ms T ms 0 [] (by omega) (by omega) hT

/-- C5 counterexample: the run thread also sleeps through direct
page.wait_for_timeout calls; the 3000ms settle wait in
step1_navigate_to_dreamstime is a single blocking chunk of 3000 ticks, so not
every sleep in the run thread is decomposed into increments of at most 100ms
polled against the stop flag. -/
theorem c5_counterexample :
    step1UploadSettleWait = [3000] ∧ ¬ (∀ c ∈ step1UploadSettleWait, c ≤ 100) := by
  refine ⟨rfl, by decide⟩

/-- C5 witness: a 5000-tick safe_wait with the stop flag set at tick 250 is
interrupted within one 100-tick polling interval. -/
theorem c5_safe_wait_poll_witness :
    (∃ r, safe_wait 5000 (some (fun t => decide (250 ≤ t))) = WaitResult.raised r ∧
      250 ≤ r ∧ r < 350)
    ∨ (∃ cs, safe_wait 5000 (some (fun t => decide (250 ≤ t))) = WaitResult.completed cs ∧
      5000 < 350) :=
  c5_safe_wait_poll.2 5000 250 (by omega)

/-! ## C10: safe_wait with and without a callback -/

/-- C10: safe_wait without a callback performs one single blocking wait of the
full requested duration and never raises; with a callback it raises exactly
when the callback answers true at one of the 100-tick poll points inside the
wait. -/
theorem c10_safe_wait_callback :
    (∀ ms : Nat, safe_wait ms none = WaitResult.completed [ms])
    ∧ (∀ (ms : Nat) (f : Nat → Bool),
      (∃ r, safe_wait ms (some f) = WaitResult.raised r) ↔
        ∃ k, 100 * k < ms ∧ f (100 * k) = true) := by
  constructor
  · intro ms
    rfl
  · intro ms f
    have h := safeWaitLoop_raised_iff f ms ms 0 [] (by omega)
    simpa using h

/-- C10 witness: a 700-tick wait with no callback is one 700-tick block; with
a callback that answers true from tick 42 on, the wait raises. -/
theorem c10_safe_wait_callback_witness :
    safe_wait 700 none = WaitResult.completed [700]
    ∧ ∃ r, safe_wait 700 (some (fun t => decide (42 ≤ t))) = WaitResult.raised r :=
  ⟨c10_safe_wait_callback.1 700,
    (c10_safe_wait_callback.2 700 (fun t => decide (42 ≤ t))).mpr ⟨1, by omega, by decide⟩⟩

/-! ## process_images_loop lemmas (C1, C2, C4) -/

theorem fieldsAndSubmit_keeps (o : Nat) (env : IterEnv) (i : Nat) (s : LoopState) :
    (fieldsAndSubmit o env i s).1.lastImageId = s.lastImageId ∧
    (fieldsAndSubmit o env i s).1.retryCount = s.retryCount := by
  cases h1 : env.captchaBeforeSubmitOk <;> cases h2 : env.submitBtnPresent <;>
    cases h3 : env.elapsedOver60 <;> cases h4 : env.deleteBtnPresent <;>
    cases h5 : env.confirmBtnPresent <;> cases h6 : env.captchaAfterSubmitOk <;>
    simp [fieldsAndSubmit, pushEv, h1, h2, h3, h4, h5, h6, apply_ite]

theorem runLoop_cont (o : RunOptions) (envs : Nat → IterEnv) (i fuel : Nat)
    (s s1 : LoopState) (h : processBody o i (envs i) s = (s1, Control.cont)) :
    runLoop o envs i (fuel + 1) s = runLoop o envs (i + 1) fuel s1 := by
  simp [runLoop, h]

theorem runLoop_brk (o : RunOptions) (envs : Nat → IterEnv) (i fuel : Nat)
    (s s1 : LoopState) (h : processBody o i (envs i) s = (s1, Control.brk)) :
    runLoop o envs i (fuel + 1) s = RunOutcome.finished s1 := by
  simp [runLoop, h]

/-- An iteration that reaches the duplicate check with a non-duplicate (or
empty) id proceeds to field population and submission with the id recorded
and the retry counter reset. -/
theorem processBody_nondup (o : RunOptions) (i : Nat) (env : IterEnv) (s : LoopState)
    (id : String) (hstop : env.stopRequested = false) (hedit : env.onEditPage = true)
    (htitle : env.titleFound = true) (hdesc : env.descFound = true)
    (hid : env.scrapedId = some id) (hdup : ¬ (¬ id = "" ∧ id = s.lastImageId)) :
    processBody o i env s = fieldsAndSubmit o.repeatCount env i
      { s with
        lastImageId := id
        retryCount := 0
        events := s.events ++ [Ev.readId i id] } := by
  simp only [processBody, navResult]
  rw [hstop, hedit, htitle, hdesc, hid]
  simp [pushEv, hdup]

/-- A duplicate id under policy stop: the loop breaks at once, recording only
the id read. -/
theorem processBody_dup_stop (o : RunOptions) (i : Nat) (env : IterEnv) (s : LoopState)
    (id : String) (hstop : env.stopRequested = false) (hedit : env.onEditPage = true)
    (htitle : env.titleFound = true) (hdesc : env.descFound = true)
    (hid : env.scrapedId = some id) (hne : id ≠ "") (hlast : s.lastImageId = id)
    (ho : o.sameIdAction = SameIdAction.stop) :
    processBody o i env s =
      ({ s with events := s.events ++ [Ev.readId i id] }, Control.brk) := by
  simp only [processBody, navResult]
  rw [hstop, hedit, htitle, hdesc, hid, ho]
  simp [pushEv, hne, hlast]

/-- A duplicate id under policy skip: the next control is clicked when
present, the retry counter is incremented, and on reaching MAX_RETRIES the
item is force-counted and the counter reset; the iteration always continues
the loop. -/
theorem processBody_dup_skip (o : RunOptions) (i : Nat) (env : IterEnv) (s : LoopState)
    (id : String) (hstop : env.stopRequested = false) (hedit : env.onEditPage = true)
    (htitle : env.titleFound = true) (hdesc : env.descFound = true)
    (hid : env.scrapedId = some id) (hne : id ≠ "") (hlast : s.lastImageId = id)
    (ho : o.sameIdAction = SameIdAction.skip) :
    processBody o i env s =
      (if MAX_RETRIES ≤ s.retryCount + 1 then
        { s with
          retryCount := 0
          processed := s.processed + 1
          events := s.events ++
            (if env.nextBtnPresent then [Ev.readId i id, Ev.clickNext i]
             else [Ev.readId i id]) }
      else
        { s with
          retryCount := s.retryCount + 1
          events := s.events ++
            (if env.nextBtnPresent then [Ev.readId i id, Ev.clickNext i]
             else [Ev.readId i id]) }, Control.cont) := by
  simp only [processBody, navResult]
  rw [hstop, hedit, htitle, hdesc, hid, ho]
  cases hnb : env.nextBtnPresent <;>
    by_cases hrc : MAX_RETRIES ≤ s.retryCount + 1 <;>
    simp [pushEv, hne, hlast, hnb, hrc]

/-- fieldsAndSubmit in a fully favourable iteration submits and counts the
item. -/
theorem fieldsAndSubmit_happy (o : Nat) (id : String) (i : Nat) (s : LoopState) :
    fieldsAndSubmit o (happyEnv id) i s =
      ({ s with
        processed := s.processed + 1
        processedCount := s.processed + 1
        successfulCount := s.processed + 1
        events := s.events ++ [Ev.clickSubmit i] }, Control.cont) := by
  simp [fieldsAndSubmit, pushEv, happyEnv]

/-- A fresh non-duplicate item in a fully favourable iteration: the id is
recorded, the retry counter reset, the item submitted and counted. -/
theorem processBody_happy_new (o : RunOptions) (i : Nat) (A : String) (s : LoopState)
    (_hA : A ≠ "") (hlast : s.lastImageId ≠ A) :
    processBody o i (happyEnv A) s =
      ({ s with
        lastImageId := A
        retryCount := 0
        processed := s.processed + 1
        processedCount := s.processed + 1
        successfulCount := s.processed + 1
        events := s.events ++ [Ev.readId i A, Ev.clickSubmit i] }, Control.cont) := by
  rw [processBody_nondup o i (happyEnv A) s A rfl rfl rfl rfl rfl
      (fun hx => hlast hx.2.symm)]
  rw [fieldsAndSubmit_happy]
  simp

/-- A duplicate id under policy stop in a fully favourable iteration. -/
theorem processBody_happy_dup_stop (o : RunOptions) (i : Nat) (A : String) (s : LoopState)
    (hA : A ≠ "") (hlast : s.lastImageId = A) (ho : o.sameIdAction = SameIdAction.stop) :
    processBody o i (happyEnv A) s =
      ({ s with events := s.events ++ [Ev.readId i A] }, Control.brk) :=
  processBody_dup_stop o i (happyEnv A) s A rfl rfl rfl rfl rfl hA hlast ho

/-! ## C2: the 60-second overtime check -/

/-- C2 (amended): when the per-item cycle has exceeded the 60-second ceiling
at the check, the iteration abandons the item through the delete control and
its confirmation, continues the loop, and leaves every processed counter
unchanged; but the check runs only after the submit click, so the submit
control has already been invoked whenever it is present. -/
theorem c2_overtime_delete (o : Nat) (env : IterEnv) (i : Nat) (s : LoopState)
    (h1 : env.captchaBeforeSubmitOk = true) (h2 : env.elapsedOver60 = true) :
    (fieldsAndSubmit o env i s).2 = Control.cont
    ∧ (fieldsAndSubmit o env i s).1.processed = s.processed
    ∧ (fieldsAndSubmit o env i s).1.processedCount = s.processedCount
    ∧ (fieldsAndSubmit o env i s).1.successfulCount = s.successfulCount
    ∧ (env.deleteBtnPresent = true →
        Ev.clickDelete i ∈ (fieldsAndSubmit o env i s).1.events)
    ∧ (env.submitBtnPresent = true →
        Ev.clickSubmit i ∈ (fieldsAndSubmit o env i s).1.events) := by
  cases hs : env.submitBtnPresent <;> cases hd : env.deleteBtnPresent <;>
    cases hc : env.confirmBtnPresent <;>
    simp [fieldsAndSubmit, pushEv, h1, h2, hs, hd, hc]

/-- C2 counterexample: in a run whose single item exceeds the 60-second
ceiling, the submit control is invoked (and then the item deleted and left
uncounted), contradicting the claim that the item is abandoned instead of
invoking the submit control. -/
theorem c2_counterexample :
    overtimeEnv.elapsedOver60 = true
    ∧ runFinished (process_images_loop true true ⟨1, SameIdAction.skip⟩
        (fun _ => overtimeEnv)) = true
    ∧ Ev.clickSubmit 0 ∈ runEvents (process_images_loop true true ⟨1, SameIdAction.skip⟩
        (fun _ => overtimeEnv))
    ∧ Ev.clickDelete 0 ∈ runEvents (process_images_loop true true ⟨1, SameIdAction.skip⟩
        (fun _ => overtimeEnv))
    ∧ runProcessed (process_images_loop true true ⟨1, SameIdAction.skip⟩
        (fun _ => overtimeEnv)) = 0 := by
  decide

/-- C2 witness: a concrete overtime iteration continues the loop, counts
nothing, and clicks the delete control. -/
theorem c2_overtime_delete_witness :
    (fieldsAndSubmit 1 overtimeEnv 0 initLoopState).2 = Control.cont
    ∧ (fieldsAndSubmit 1 overtimeEnv 0 initLoopState).1.processed = initLoopState.processed
    ∧ Ev.clickDelete 0 ∈ (fieldsAndSubmit 1 overtimeEnv 0 initLoopState).1.events :=
  ⟨(c2_overtime_delete 1 overtimeEnv 0 initLoopState rfl rfl).1,
   (c2_overtime_delete 1 overtimeEnv 0 initLoopState rfl rfl).2.1,
   (c2_overtime_delete 1 overtimeEnv 0 initLoopState rfl rfl).2.2.2.2.1 rfl⟩

/-! ## C1: duplicate policy skip with MAX_RETRIES = 3 -/

/-- C1: under policy skip, a duplicate id increments retry_count and leaves
the processed count unchanged while the counter stays below MAX_RETRIES;
when the incremented counter reaches MAX_RETRIES the item is force-counted
as processed and the counter is reset to 0; a non-duplicate id resets the
counter to 0 and records the id as last_image_id; and on the id sequence
A, A, A, A with repeat count 4 the fourth occurrence increments the
processed count (from 1 to 2), the duplicates are never submitted, and the
run finishes. -/
theorem c1_duplicate_skip :
    (∀ (o : RunOptions) (i : Nat) (env : IterEnv) (s : LoopState) (id : String),
      o.sameIdAction = SameIdAction.skip →
      env.stopRequested = false → env.onEditPage = true →
      env.titleFound = true → env.descFound = true →
      env.scrapedId = some id → id ≠ "" → s.lastImageId = id →
      ((s.retryCount + 1 < MAX_RETRIES →
        (processBody o i env s).1.retryCount = s.retryCount + 1 ∧
        (processBody o i env s).1.processed = s.processed ∧
        (processBody o i env s).2 = Control.cont)
      ∧ (MAX_RETRIES ≤ s.retryCount + 1 →
        (processBody o i env s).1.retryCount = 0 ∧
        (processBody o i env s).1.processed = s.processed + 1 ∧
        (processBody o i env s).2 = Control.cont)))
    ∧ (∀ (o : RunOptions) (i : Nat) (env : IterEnv) (s : LoopState) (id : String),
      env.stopRequested = false → env.onEditPage = true →
      env.titleFound = true → env.descFound = true →
      env.scrapedId = some id → (id = "" ∨ s.lastImageId ≠ id) →
      (processBody o i env s).1.lastImageId = id ∧
      (processBody o i env s).1.retryCount = 0)
    ∧ (runProcessed (process_images_loop true true ⟨4, SameIdAction.skip⟩
        (fun _ => happyEnv "A")) = 2
      ∧ runRetryCount (process_images_loop true true ⟨4, SameIdAction.skip⟩
        (fun _ => happyEnv "A")) = 0
      ∧ runFinished (process_images_loop true true ⟨4, SameIdAction.skip⟩
        (fun _ => happyEnv "A")) = true
      ∧ runEvents (process_images_loop true true ⟨4, SameIdAction.skip⟩
        (fun _ => happyEnv "A")) =
        [Ev.readId 0 "A", Ev.clickSubmit 0, Ev.readId 1 "A", Ev.clickNext 1,
         Ev.readId 2 "A", Ev.clickNext 2, Ev.readId 3 "A", Ev.clickNext 3]) := by
  refine ⟨?_, ?_, by decide⟩
  · intro o i env s id ho hstop hedit htitle hdesc hid hne hlast
    rw [processBody_dup_skip o i env s id hstop hedit htitle hdesc hid hne hlast ho]
    constructor
    · intro hrc
      rw [if_neg (by omega : ¬ MAX_RETRIES ≤ s.retryCount + 1)]
      exact ⟨rfl, rfl, rfl⟩
    · intro hrc
      rw [if_pos hrc]
      exact ⟨rfl, rfl, rfl⟩
  · intro o i env s id hstop hedit htitle hdesc hid hcase
    have hdup : ¬ (¬ id = "" ∧ id = s.lastImageId) := by
      rcases hcase with h | h
      · intro hx; exact hx.1 h
      · intro hx; exact h (hx.2.symm)
    rw [processBody_nondup o i env s id hstop hedit htitle hdesc hid hdup]
    constructor
    · have := (fieldsAndSubmit_keeps o.repeatCount env i
        { s with
          lastImageId := id
          retryCount := 0
          events := s.events ++ [Ev.readId i id] }).1
      simpa using this
    · have := (fieldsAndSubmit_keeps o.repeatCount env i
        { s with
          lastImageId := id
          retryCount := 0
          events := s.events ++ [Ev.readId i id] }).2
      simpa using this

/-- C1 witness: the second consecutive occurrence of id A (retry counter 0)
increments the counter to 1 without counting the item, and with the counter
at 2 the next duplicate force-counts the item and resets the counter. -/
theorem c1_duplicate_skip_witness :
    ((processBody ⟨4, SameIdAction.skip⟩ 1 (happyEnv "A")
      ⟨"A", 0, 1, 1, 1, []⟩).1.retryCount = 1
    ∧ (processBody ⟨4, SameIdAction.skip⟩ 1 (happyEnv "A")
      ⟨"A", 0, 1, 1, 1, []⟩).1.processed = 1
    ∧ (processBody ⟨4, SameIdAction.skip⟩ 1 (happyEnv "A")
      ⟨"A", 0, 1, 1, 1, []⟩).2 = Control.cont)
    ∧ ((processBody ⟨4, SameIdAction.skip⟩ 3 (happyEnv "A")
      ⟨"A", 2, 1, 1, 1, []⟩).1.retryCount = 0
    ∧ (processBody ⟨4, SameIdAction.skip⟩ 3 (happyEnv "A")
      ⟨"A", 2, 1, 1, 1, []⟩).1.processed = 2
    ∧ (processBody ⟨4, SameIdAction.skip⟩ 3 (happyEnv "A")
      ⟨"A", 2, 1, 1, 1, []⟩).2 = Control.cont) :=
  ⟨(c1_duplicate_skip.1 ⟨4, SameIdAction.skip⟩ 1 (happyEnv "A") ⟨"A", 0, 1, 1, 1, []⟩ "A"
      rfl rfl rfl rfl rfl rfl (by decide) rfl).1 (by decide),
   (c1_duplicate_skip.1 ⟨4, SameIdAction.skip⟩ 3 (happyEnv "A") ⟨"A", 2, 1, 1, 1, []⟩ "A"
      rfl rfl rfl rfl rfl rfl (by decide) rfl).2 (by decide)⟩

/-! ## C4: duplicate policy stop on the sequence A, A, B -/

/-- C4: with policy stop and scraped ids A, A, B, the loop reads the second A,
breaks immediately without submitting it, never opens a third item, keeps the
processed count reached strictly before the duplicate (here 1), and the run
is reported as graceful completion. -/
theorem c4_duplicate_stop (A : String) (hA : A ≠ "") (k : Nat) :
    runFinished (process_images_loop true true ⟨k + 2, SameIdAction.stop⟩
      (envsAAB A)) = true
    ∧ runProcessed (process_images_loop true true ⟨k + 2, SameIdAction.stop⟩
      (envsAAB A)) = 1
    ∧ Ev.clickSubmit 1 ∉ runEvents (process_images_loop true true ⟨k + 2, SameIdAction.stop⟩
      (envsAAB A))
    ∧ (∀ (j : Nat) (id : String), 2 ≤ j →
      Ev.readId j id ∉ runEvents (process_images_loop true true ⟨k + 2, SameIdAction.stop⟩
        (envsAAB A))) := by
  have hlast0 : initLoopState.lastImageId ≠ A := fun h => hA h.symm
  have henv0 : envsAAB A 0 = happyEnv A := by simp [envsAAB]
  have henv1 : envsAAB A 1 = happyEnv A := by simp [envsAAB]
  have h0 : processBody ⟨k + 2, SameIdAction.stop⟩ 0 (envsAAB A 0) initLoopState =
      (⟨A, 0, 1, 1, 1, [Ev.readId 0 A, Ev.clickSubmit 0]⟩, Control.cont) := by
    rw [henv0, processBody_happy_new _ 0 A initLoopState hA hlast0]
    rfl
  have h1 : processBody ⟨k + 2, SameIdAction.stop⟩ 1 (envsAAB A 1)
      ⟨A, 0, 1, 1, 1, [Ev.readId 0 A, Ev.clickSubmit 0]⟩ =
      (⟨A, 0, 1, 1, 1, [Ev.readId 0 A, Ev.clickSubmit 0, Ev.readId 1 A]⟩, Control.brk) := by
    rw [henv1, processBody_happy_dup_stop _ 1 A _ hA rfl rfl]
    rfl
  have hrun : process_images_loop true true ⟨k + 2, SameIdAction.stop⟩ (envsAAB A) =
      RunOutcome.finished ⟨A, 0, 1, 1, 1,
        [Ev.readId 0 A, Ev.clickSubmit 0, Ev.readId 1 A]⟩ := by
    show runLoop ⟨k + 2, SameIdAction.stop⟩ (envsAAB A) 0 (k + 1 + 1) initLoopState =
      RunOutcome.finished ⟨A, 0, 1, 1, 1,
        [Ev.readId 0 A, Ev.clickSubmit 0, Ev.readId 1 A]⟩
    rw [runLoop_cont _ _ 0 (k + 1) _ _ h0]
    exact runLoop_brk _ _ 1 k _ _ h1
  rw [hrun]
  refine ⟨rfl, rfl, ?_, ?_⟩
  · simp [runEvents]
  · intro j id hj
    simp only [runEvents, List.mem_cons, List.not_mem_nil, or_false]
    rintro (h | h | h)
    · rw [Ev.readId.injEq] at h
      obtain ⟨h1, -⟩ := h
      omega
    · exact absurd h (by simp)
    · rw [Ev.readId.injEq] at h
      obtain ⟨h1, -⟩ := h
      omega

/-- C4 witness: at A = img with repeat count 3, the stop-policy run over
ids img, img, B finishes gracefully with exactly one processed item. -/
theorem c4_duplicate_stop_witness :
    runFinished (process_images_loop true true ⟨3, SameIdAction.stop⟩
      (envsAAB "img")) = true
    ∧ runProcessed (process_images_loop true true ⟨3, SameIdAction.stop⟩
      (envsAAB "img")) = 1 :=
  ⟨(c4_duplicate_stop "img" (by decide) 1).1,
   (c4_duplicate_stop "img" (by decide) 1).2.1⟩

/-! ## _parse_response lemmas (C6) -/

theorem parseLines_title_none (lines : List (List Char)) :
    ∀ (t d : Option (List Char)),
      (∀ l ∈ lines, TITLE_LABEL.isPrefixOf (pyUpper (pyStrip l)) = false) →
      (parseLines lines t d).1 = t := by
  induction lines with
  | nil => intro t d _h; rfl
  | cons line rest ih =>
    intro t d h
    have h0 := h line (List.mem_cons_self _ _)
    simp only [parseLines, h0]
    simp only [Bool.false_eq_true, if_false]
    by_cases hd : DESCRIPTION_LABEL.isPrefixOf (pyUpper (pyStrip line)) = true
    · rw [if_pos hd]
      exact ih t _ (fun l hl => h l (List.mem_cons_of_mem _ hl))
    · rw [if_neg hd]
      exact ih t d (fun l hl => h l (List.mem_cons_of_mem _ hl))

theorem parseLines_desc_none (lines : List (List Char)) :
    ∀ (t d : Option (List Char)),
      (∀ l ∈ lines, DESCRIPTION_LABEL.isPrefixOf (pyUpper (pyStrip l)) = false) →
      (parseLines lines t d).2 = d := by
  induction lines with
  | nil => intro t d _h; rfl
  | cons line rest ih =>
    intro t d h
    have h0 := h line (List.mem_cons_self _ _)
    simp only [parseLines, h0]
    by_cases ht : TITLE_LABEL.isPrefixOf (pyUpper (pyStrip line)) = true
    · rw [if_pos ht]
      exact ih _ d (fun l hl => h l (List.mem_cons_of_mem _ hl))
    · rw [if_neg ht]
      simp only [Bool.false_eq_true, if_false]
      exact ih t d (fun l hl => h l (List.mem_cons_of_mem _ hl))

theorem parseLines_title_capped (lines : List (List Char)) :
    ∀ (t d : Option (List Char)),
      (∀ x, t = some x → ∃ raw, x = capTitle raw) →
      ∀ x, (parseLines lines t d).1 = some x → ∃ raw, x = capTitle raw := by
  induction lines with
  | nil => intro t d ht x hx; exact ht x hx
  | cons line rest ih =>
    intro t d ht x hx
    simp only [parseLines] at hx
    by_cases h1 : TITLE_LABEL.isPrefixOf (pyUpper (pyStrip line)) = true
    · rw [if_pos h1] at hx
      refine ih _ d (fun y hy => ?_) x hx
      exact ⟨pyStripQuotes (pyStrip (afterFirstColon (pyStrip line))),
        (Option.some.inj hy).symm⟩
    · rw [if_neg h1] at hx
      by_cases h2 : DESCRIPTION_LABEL.isPrefixOf (pyUpper (pyStrip line)) = true
      · rw [if_pos h2] at hx
        exact ih t _ ht x hx
      · rw [if_neg h2] at hx
        exact ih t d ht x hx

theorem capTitle_length (t : List Char) : (capTitle t).length ≤ 115 := by
  unfold capTitle
  split_ifs with h
  · have h3 : ("...".toList).length = 3 := rfl
    simp only [List.length_append, List.length_take, h3]
    omega
  · omega

/-! ## C6: _parse_response label requirements and title cap -/

/-- C6: _parse_response returns None when either the TITLE: or the
DESCRIPTION: labelled line is absent; and whenever it returns a pair, the
returned title is the cap of some parsed raw title, has length at most 115,
and carries the ... truncation marker exactly when the raw title was longer
than 115 characters. -/
theorem c6_parse_response (text : List Char) :
    ((hasLabel TITLE_LABEL text = false ∨ hasLabel DESCRIPTION_LABEL text = false) →
      parse_response text = none)
    ∧ (∀ t d, parse_response text = some (t, d) →
      t.length ≤ 115 ∧ ∃ raw, t = capTitle raw ∧
        (115 < raw.length → t = raw.take 112 ++ "...".toList)) := by
  constructor
  · intro h
    unfold parse_response
    rcases hp : parseLines ((pyStrip text).splitOn '\n') none none with ⟨topt, dopt⟩
    rcases h with h | h
    · have hall : ∀ l ∈ (pyStrip text).splitOn '\n',
          TITLE_LABEL.isPrefixOf (pyUpper (pyStrip l)) = false := by
        intro l hl
        cases hx : TITLE_LABEL.isPrefixOf (pyUpper (pyStrip l))
        · rfl
        · exfalso
          have hTrue : hasLabel TITLE_LABEL text = true := by
            unfold hasLabel
            rw [List.any_eq_true]
            exact ⟨l, hl, hx⟩
          rw [hTrue] at h
          cases h
      have ht : topt = none := by
        have h2 := parseLines_title_none ((pyStrip text).splitOn '\n') none none hall
        rw [hp] at h2
        exact h2
      subst ht
      cases dopt <;> rfl
    · have hall : ∀ l ∈ (pyStrip text).splitOn '\n',
          DESCRIPTION_LABEL.isPrefixOf (pyUpper (pyStrip l)) = false := by
        intro l hl
        cases hx : DESCRIPTION_LABEL.isPrefixOf (pyUpper (pyStrip l))
        · rfl
        · exfalso
          have hTrue : hasLabel DESCRIPTION_LABEL text = true := by
            unfold hasLabel
            rw [List.any_eq_true]
            exact ⟨l, hl, hx⟩
          rw [hTrue] at h
          cases h
      have hd : dopt = none := by
        have h2 := parseLines_desc_none ((pyStrip text).splitOn '\n') none none hall
        rw [hp] at h2
        exact h2
      subst hd
      cases topt <;> rfl
  · intro t d h
    unfold parse_response at h
    rcases hp : parseLines ((pyStrip text).splitOn '\n') none none with ⟨topt, dopt⟩
    rw [hp] at h
    cases topt with
    | none => cases dopt <;> exact Option.noConfusion h
    | some t1 =>
      cases dopt with
      | none => exact Option.noConfusion h
      | some d1 =>
        change (if t1 ≠ [] ∧ d1 ≠ [] then some (t1, d1) else none) = some (t, d) at h
        split_ifs at h with hcond
        have h2 : (t1, d1) = (t, d) := Option.some.inj h
        have ht1 : t1 = t := congrArg Prod.fst h2
        subst ht1
        obtain ⟨raw, hraw⟩ := parseLines_title_capped ((pyStrip text).splitOn '\n')
          none none (fun y hy => Option.noConfusion hy) t1 (by rw [hp])
        subst hraw
        refine ⟨capTitle_length raw, raw, rfl, fun hlen => ?_⟩
        unfold capTitle
        rw [if_pos hlen]

/-- C6 witness: a response with a TITLE: line but no DESCRIPTION: line parses
to None. -/
theorem c6_parse_response_witness :
    parse_response ("TITLE: hi".toList) = none :=
  (c6_parse_response ("TITLE: hi".toList)).1 (Or.inr (by decide))

end Dreamstime
